import Mathlib

/-!
Shallow embedding of the browser-side order/upload components of the
Photofine front-end:

* `OrderForm.tsx`        — order-creation form (`handleSubmit`, progress writes)
* `AlbumUpload.tsx`      — current upload wizard revision (called `v0` here)
* `unnamed/part_001`     — two older coexisting revisions of the upload wizard
                           (first one called `v1`, second one `v2`)
* `unnamed/part_000`     — `DashboardLayout` (session shell)

JS strings are Lean `String`s, JS numbers that hold byte counts or
percentages are `Nat`, fractional progress arithmetic is `ℚ`, JS
truthiness of strings/options is made explicit, and component state
updates are explicit state passing.
-/

namespace Photofine

/-! ## Basic string helpers (JS `endsWith`, `includes`, `toLowerCase`) -/

/-- Does `l` start with `pat` (character-list version of JS `startsWith`)? -/
def leadMatch : List Char → List Char → Bool
  | [], _ => true
  | _ :: _, [] => false
  | p :: ps, c :: cs => p == c && leadMatch ps cs

/-- Does `l` contain `pat` as a contiguous run (JS `String.includes`)? -/
def subMatch (pat : List Char) : List Char → Bool
  | [] => leadMatch pat []
  | c :: cs => leadMatch pat (c :: cs) || subMatch pat (cs)

/-- JS `haystack.includes(needle)`. -/
def strIncludes (haystack needle : String) : Bool :=
  subMatch needle.toList haystack.toList

/-- JS `s.endsWith(suffix)`. -/
def endsMatch (s suffix : String) : Bool :=
  leadMatch suffix.toList.reverse s.toList.reverse

/-- JS `s.toLowerCase()` (ASCII, as used on file names here). -/
def jsToLower (s : String) : String :=
  String.mk (s.toList.map Char.toLower)

/-- JS `s.trim()` (drop leading and trailing whitespace). -/
def jsTrim (s : String) : String :=
  String.mk (((s.toList.dropWhile Char.isWhitespace).reverse.dropWhile
    Char.isWhitespace).reverse)

/-! ## Files as the components see them

A selected `File` carries a name, a byte size and a MIME type (`type` in
JS).  The folder-upload revisions additionally attach custom properties
`isFolder`, `fileCount` and `files` to a virtual folder `File`
(`handleFileChange` in `part_001`); we carry them on every file value,
with `isFolderProp = false` and `files = []` for ordinary files. -/

/-- One file inside a selected folder (an entry of the wrapped `FileList`). -/
structure InnerFile where
  name : String
  size : Nat
  mime : String
  webkitRelativePath : String
  deriving Repr, DecidableEq

/-- A selected `File` object, including the custom folder properties added by
`handleFileChange` in the folder-capable revisions. -/
structure FileMeta where
  name : String
  size : Nat
  mime : String
  isFolderProp : Bool := false
  fileCount : Nat := 0
  files : List InnerFile := []
  deriving Repr, DecidableEq

/-! ## Validation allow-lists (`validateAndSetFile`, all revisions) -/

/-- `validExtensions` in `AlbumUpload.tsx` line 153 (= `part_001` lines 110 and 718). -/
def validExtensions : List String :=
  [".zip", ".rar", ".7z", ".pdf", ".jpg", ".jpeg", ".png", ".webp",
   ".gif", ".bmp", ".tiff", ".tif"]

/-- `validMimeTypes` in `AlbumUpload.tsx` lines 161–164 (= `part_001` lines 118–121). -/
def validMimeTypes : List String :=
  ["application/zip", "application/x-rar-compressed", "application/x-7z-compressed",
   "application/pdf", "image/jpeg", "image/png", "image/webp", "image/gif",
   "image/bmp", "image/tiff"]

/-- `validExtensions.some(ext => fileName.endsWith(ext))` with
`fileName = selectedFile.name.toLowerCase()`. -/
def extListOk (name : String) : Bool :=
  validExtensions.any (fun ext => endsMatch (jsToLower name) ext)

/-- `validMimeTypes.some(mime => selectedFile.type.includes(mime))`. -/
def mimeListOk (mime : String) : Bool :=
  validMimeTypes.any (fun m => strIncludes mime m)

/-- The combined type check of `AlbumUpload.tsx` / `part_001` first revision:
extension first, MIME fallback only when the file's `type` is non-empty
(JS truthiness of `selectedFile.type`). -/
def isValidTypeWithMime (f : FileMeta) : Bool :=
  extListOk f.name || (!(f.mime == "") && mimeListOk f.mime)

/-- The type check of the second `part_001` revision (extension only,
`validTypes.some(type => fileName.endsWith(type))`, no MIME fallback). -/
def isValidTypeExtOnly (f : FileMeta) : Bool :=
  extListOk f.name

/-- `maxSize` in `AlbumUpload.tsx` line 179: `1024 * 1024 * 1024`. -/
def maxSize_v0 : Nat := 1024 * 1024 * 1024

/-- `maxSize` in `part_001` line 136 (first revision): `1024 * 1024 * 1024`. -/
def maxSize_v1 : Nat := 1024 * 1024 * 1024

/-- `maxSize` in `part_001` line 732 (second revision): `1024 * 1024 * 1024`. -/
def maxSize_v2 : Nat := 1024 * 1024 * 1024

/-- The size gate of revision 0: a file is size-rejected iff
`selectedFile.size > maxSize` (strict). -/
def sizeRejected_v0 (size : Nat) : Bool := maxSize_v0 < size

/-- The size gate of the first `part_001` revision. -/
def sizeRejected_v1 (size : Nat) : Bool := maxSize_v1 < size

/-- The size gate of the second `part_001` revision. -/
def sizeRejected_v2 (size : Nat) : Bool := maxSize_v2 < size

/-- The folder test of the `part_001` revisions:
`(selectedFile as any).isFolder || (size === 0 && type === '' || type === 'application/x-directory')`. -/
def isFolderSel (f : FileMeta) : Bool :=
  f.isFolderProp || (f.size == 0 && f.mime == "") || f.mime == "application/x-directory"

/-! ## Wizard state and `validateAndSetFile` -/

/-- User-visible toast notifications, by identity. -/
inductive ToastKind where
  | invalidFileType
  | fileTooLarge
  | fileSelected
  | folderSelected
  | errorMissingNameOrFile
  | uploadErrorInvalidObject
  | uploadErrorNoFolderFiles
  | largeFolderDetected
  | uploadTimeoutMsg
  | networkErrorMsg
  | uploadTooLargeMsg
  | serverErrorMsg
  | uploadFailedMsg
  | uploadSuccessfulMsg
  deriving Repr, DecidableEq

/-- Component state of the upload wizard (the `useState` hooks that the
claims are about), plus a log of toasts shown and a count of upload
requests issued, so that "no network call" is expressible. -/
structure WizardState where
  albumName : String := ""
  file : Option FileMeta := none
  isUploading : Bool := false
  uploadProgress : ℚ := 0
  useGoogleDrive : Bool := false
  driveFileId : Option String := none
  toasts : List ToastKind := []
  requests : Nat := 0
  deriving Repr, DecidableEq

/-- `file.name.split('.').slice(0, -1).join('.') || file.name`
(album-name suggestion from a file name). -/
def nameWithoutExt (name : String) : String :=
  let joined := String.intercalate "." ((name.splitOn ".").dropLast)
  if joined == "" then name else joined

/-- The common tail of `validateAndSetFile` once a regular file passed both
checks: set the file, force the Google-Drive path, toast, and default the
album name when it is empty (JS truthiness of `albumName`). -/
def acceptFileTail (s : WizardState) (f : FileMeta) : WizardState :=
  { s with
    file := some f
    useGoogleDrive := true
    toasts := s.toasts ++ [ToastKind.fileSelected]
    albumName := if s.albumName == "" then nameWithoutExt f.name else s.albumName }

/-- `validateAndSetFile` of `AlbumUpload.tsx` (revision 0: no folder branch). -/
def validateAndSetFile_v0 (s : WizardState) (f : FileMeta) : WizardState :=
  if !isValidTypeWithMime f then
    { s with toasts := s.toasts ++ [ToastKind.invalidFileType] }
  else if sizeRejected_v0 f.size then
    { s with toasts := s.toasts ++ [ToastKind.fileTooLarge] }
  else
    acceptFileTail s f

/-- The folder branch shared by both `part_001` revisions: accept the
selection outright, force Google Drive, and default the album name to the
folder name. -/
def acceptFolderTail (s : WizardState) (f : FileMeta) : WizardState :=
  { s with
    file := some f
    useGoogleDrive := true
    toasts := s.toasts ++ [ToastKind.folderSelected]
    albumName := if s.albumName == "" then f.name else s.albumName }

/-- `validateAndSetFile` of the first `part_001` revision (folder branch,
then the same extension/MIME and size checks as revision 0). -/
def validateAndSetFile_v1 (s : WizardState) (f : FileMeta) : WizardState :=
  if isFolderSel f then
    acceptFolderTail s f
  else if !isValidTypeWithMime f then
    { s with toasts := s.toasts ++ [ToastKind.invalidFileType] }
  else if sizeRejected_v1 f.size then
    { s with toasts := s.toasts ++ [ToastKind.fileTooLarge] }
  else
    acceptFileTail s f

/-- `validateAndSetFile` of the second `part_001` revision (folder branch,
extension-only type check, same size check). -/
def validateAndSetFile_v2 (s : WizardState) (f : FileMeta) : WizardState :=
  if isFolderSel f then
    acceptFolderTail s f
  else if !isValidTypeExtOnly f then
    { s with toasts := s.toasts ++ [ToastKind.invalidFileType] }
  else if sizeRejected_v2 f.size then
    { s with toasts := s.toasts ++ [ToastKind.fileTooLarge] }
  else
    acceptFileTail s f

/-- The wizard submit control's `disabled` expression
(`!file || !albumName.trim() || isUploading`). -/
def wizardSubmitDisabled (s : WizardState) : Bool :=
  s.file.isNone || jsTrim s.albumName == "" || s.isUploading

/-! ## The Google-Drive upload (`uploadToGoogleDrive`, `AlbumUpload.tsx`) -/

/-- JS truthiness of an optional string (`if (fileId)`, `if (driveFileId)`). -/
def jsTruthyOptStr (o : Option String) : Bool :=
  match o with
  | none => false
  | some s => !(s == "")

/-- The client-side timeout: `setTimeout(..., 300000)` / axios `timeout: 300000`. -/
def uploadTimeoutMs : Nat := 300000

/-- Does the 5-minute timer fire before the request settles?  The
environment says when (in ms) the axios promise would settle on its own;
`none` means it never would. -/
def timerFires (completionMs : Option Nat) : Bool :=
  match completionMs with
  | none => true
  | some t => uploadTimeoutMs ≤ t

/-- How a request that settled on its own failed, as classified by the
`catch` block of `uploadToGoogleDrive` in `AlbumUpload.tsx`. -/
inductive ReqError where
  | network      -- `error.code === 'ERR_NETWORK'`
  | aborted      -- `error.code === 'ECONNABORTED'` or message includes 'timeout'
  | status413    -- `error.response?.status === 413`
  | status500    -- `error.response?.status === 500`
  | otherAxios   -- any other AxiosError
  | nonAxios     -- a thrown non-axios error
  deriving Repr, DecidableEq

/-- What the awaited request would do if the timer does not cancel it:
either an HTTP response (whose body carries `success` and
`fileInfo?.id`), or a rejection. -/
inductive ReqOutcome where
  | ok (success : Bool) (fileId : Option String)
  | err (e : ReqError)
  deriving Repr, DecidableEq

/-- Environment of one upload attempt: when the request would settle, how
it settles, and whether a cancellation rejection is classified as an
`AxiosError` by `axios.isAxiosError` (axios-version dependent). -/
structure UploadEnv where
  completionMs : Option Nat
  outcome : ReqOutcome
  cancelRejectIsAxios : Bool := false
  deriving Repr, DecidableEq

/-- The single toast shown by the `catch` block of `AlbumUpload.tsx`. -/
def catchToast_v0 (e : ReqError) : ToastKind :=
  match e with
  | .network => ToastKind.networkErrorMsg
  | .aborted => ToastKind.uploadTimeoutMsg
  | .status413 => ToastKind.uploadTooLargeMsg
  | .status500 => ToastKind.serverErrorMsg
  | .otherAxios => ToastKind.uploadFailedMsg
  | .nonAxios => ToastKind.uploadFailedMsg

/-- Result of one run of `uploadToGoogleDrive`: the final component state,
whether `source.cancel` was invoked, whether `clearTimeout` ran while the
timer was still pending, and the `onAlbumUploaded` invocation if any. -/
structure UploadRun where
  state : WizardState
  cancelled : Bool := false
  timerCleared : Bool := false
  callback : Option (String × FileMeta × Option String) := none
  deriving Repr, DecidableEq

/-- The `finally` block: `setIsUploading(false); setUploadProgress(0)`. -/
def finallyReset (s : WizardState) : WizardState :=
  { s with isUploading := false, uploadProgress := 0 }

/-- Everything of `uploadToGoogleDrive` (`AlbumUpload.tsx`) after the
`await axios.post`, given the state at the suspension point.  When the
timer fires first it cancels the request and shows the timeout toast, the
rejected promise reaches the `catch` block which shows one more toast
(`Upload Timeout` again if the cancellation is an AxiosError whose message
includes 'timeout', else the generic `Upload Failed`); when the request
settles first, `clearTimeout` runs and the response or error is handled. -/
def finishUpload_v0 (s : WizardState) (f : FileMeta) (env : UploadEnv) : UploadRun :=
  if timerFires env.completionMs then
    let catchT := if env.cancelRejectIsAxios then ToastKind.uploadTimeoutMsg
                  else ToastKind.uploadFailedMsg
    { state := finallyReset
        { s with toasts := s.toasts ++ [ToastKind.uploadTimeoutMsg, catchT] },
      cancelled := true }
  else
    match env.outcome with
    | .ok true fid =>
        { state := finallyReset
            { s with
              driveFileId := if jsTruthyOptStr fid then fid else s.driveFileId,
              toasts := s.toasts ++ [ToastKind.uploadSuccessfulMsg] },
          timerCleared := true,
          callback := some (s.albumName, f, fid) }
    | .ok false _ =>
        { state := finallyReset
            { s with toasts := s.toasts ++ [ToastKind.uploadFailedMsg] },
          timerCleared := true }
    | .err e =>
        { state := finallyReset
            { s with toasts := s.toasts ++ [catchToast_v0 e] },
          timerCleared := true }

/-- `uploadToGoogleDrive` of `AlbumUpload.tsx` as one atomic run: set the
uploading state, reject an invalid file object (`size > 0` fails) without
any request, otherwise issue the one request and handle its settlement. -/
def uploadToGoogleDrive_v0 (s : WizardState) (f : FileMeta) (env : UploadEnv) : UploadRun :=
  let s1 := { s with isUploading := true, uploadProgress := 0 }
  if f.size == 0 then
    { state := finallyReset
        { s1 with toasts := s1.toasts ++ [ToastKind.uploadErrorInvalidObject] } }
  else
    finishUpload_v0 { s1 with requests := s1.requests + 1 } f env

/-- Did the environment make the attempt fail (timer fired, rejected, or
the response's `success` flag was false)? -/
def envFailed (env : UploadEnv) : Bool :=
  timerFires env.completionMs ||
    (match env.outcome with
     | .ok true _ => false
     | _ => true)

/-- The error taxonomy the claims allow for a failed upload. -/
def classifiedToasts : List ToastKind :=
  [ToastKind.networkErrorMsg, ToastKind.uploadTimeoutMsg, ToastKind.uploadTooLargeMsg,
   ToastKind.serverErrorMsg, ToastKind.uploadFailedMsg]

/-! ## Folder payload assembly (first `part_001` revision, `uploadToGoogleDrive`) -/

/-- `Math.min(files.length, 20)` cap on a folder upload. -/
def folderFileLimit : Nat := 20

/-- The per-file skip threshold inside a folder: `file.size > 50 * 1024 * 1024`. -/
def innerFileSizeCap : Nat := 50 * 1024 * 1024

/-- The files the folder branch appends to the multipart payload: the loop
runs `i` from 0 to `Math.min(files.length, 20)` and skips any file larger
than 50MB. -/
def folderAppended (files : List InnerFile) : List InnerFile :=
  (files.take (min files.length folderFileLimit)).filter
    (fun g => !(innerFileSizeCap < g.size))

/-- Outcome of the folder branch of `uploadToGoogleDrive` (first `part_001`
revision): which files are appended, whether the `Large Folder Detected`
toast is shown (`maxFiles < files.length`), and whether the branch
error-returned because the folder object carried no `files` collection. -/
structure FolderBranch where
  appended : List InnerFile
  largeFolderToastShown : Bool
  earlyErrorReturn : Bool
  deriving Repr, DecidableEq

/-- The folder branch of `uploadToGoogleDrive` in the first `part_001`
revision (`isFolder` true): guard `files && files.length > 0`, append the
capped file list, toast when truncated. -/
def folderBranch_v1 (f : FileMeta) : FolderBranch :=
  if f.files.length == 0 then
    { appended := [], largeFolderToastShown := false, earlyErrorReturn := true }
  else
    { appended := folderAppended f.files,
      largeFolderToastShown := min f.files.length folderFileLimit < f.files.length,
      earlyErrorReturn := false }

/-! ## Order form (`OrderForm.tsx`) -/

/-- `PageType` values offered by the form. -/
inductive PageType where
  | regular | ntSlim | ntThick
  deriving Repr, DecidableEq

def PageType.toStr : PageType → String
  | .regular => "Regular"
  | .ntSlim => "NT-Slim"
  | .ntThick => "NT-Thick"

/-- `LaminationType` values offered by the form. -/
inductive LamType where
  | glossy | matte | velvet | texture | lamNone
  deriving Repr, DecidableEq

def LamType.toStr : LamType → String
  | .glossy => "Glossy"
  | .matte => "Matte"
  | .velvet => "Velvet"
  | .texture => "Texture"
  | .lamNone => "None"

/-- `CoverType` values offered by the form. -/
inductive CoverType where
  | matte | glossy | velvet | texture | sparkle
  deriving Repr, DecidableEq

def CoverType.toStr : CoverType → String
  | .matte => "Matte"
  | .glossy => "Glossy"
  | .velvet => "Velvet"
  | .texture => "Texture"
  | .sparkle => "Sparkle"

/-- The `orderDetails` state object of `OrderForm.tsx`. -/
structure OrderDetails where
  pageType : PageType := .regular
  lamination : LamType := .glossy
  transparent : Bool := false
  emboss : Bool := false
  miniBook : Bool := false
  coverType : CoverType := .matte
  deriving Repr, DecidableEq

/-- JS `bool.toString()`. -/
def jsBoolStr (b : Bool) : String := if b then "true" else "false"

/-- A value appended to a `FormData`: either a plain text field or the raw
file bytes (`formData.append('file', albumFile)`). -/
inductive FormValue where
  | text (s : String)
  | filePart (f : FileMeta)
  deriving Repr, DecidableEq

/-- The multipart payload built by `handleSubmit` in `OrderForm.tsx`
(lines 77–97): when `driveFileId` is truthy, the identifier plus
`_info` metadata fields are appended and the raw file is not; otherwise
the raw file is appended; then the order-option fields follow. -/
def buildOrderFormData (driveFileId : Option String) (albumName : String)
    (albumFile : FileMeta) (od : OrderDetails) : List (String × FormValue) :=
  (if jsTruthyOptStr driveFileId then
    [("driveFileId", FormValue.text (driveFileId.getD "")),
     ("fileName_info", FormValue.text albumFile.name),
     ("fileSize_info", FormValue.text (toString albumFile.size)),
     ("fileMimeType_info", FormValue.text albumFile.mime)]
   else
    [("file", FormValue.filePart albumFile)])
  ++ [("albumName", FormValue.text albumName),
      ("pageType", FormValue.text od.pageType.toStr),
      ("lamination", FormValue.text od.lamination.toStr),
      ("transparent", FormValue.text (jsBoolStr od.transparent)),
      ("emboss", FormValue.text (jsBoolStr od.emboss)),
      ("miniBook", FormValue.text (jsBoolStr od.miniBook)),
      ("coverType", FormValue.text od.coverType.toStr)]

/-! ## Progress writes (`setUploadProgress` sequences)

`AlbumUpload.tsx` writes `0` at the start of an attempt and then
`Math.round((loaded * 100) / total)` for each progress event whose
`total` is truthy.  `OrderForm.tsx` writes `5` first and then, for each
event with a truthy `percentage`, either the raw percentage or
`Math.min(85 + percentage * 0.15, 100)` when a drive file id exists, and
`100` after success.  The percentage carried by `createOrder`'s progress
events is

Modelled from the spec: `createOrder` (in `orderService`, not part of the
source tree) reports upload progress events; per the spec's hypothesis
they report `loaded <= total`, and the percentage is the rounded ratio
exactly as computed in `AlbumUpload.tsx`. -/

/-- `Math.round((loaded * 100) / total)` on naturals:
`⌊loaded*100/total + 1/2⌋`. -/
def jsRound100 (loaded total : Nat) : Nat :=
  (200 * loaded + total) / (2 * total)

/-- The values written to `uploadProgress` by one attempt of
`uploadToGoogleDrive` (`AlbumUpload.tsx` lines 228 and 289–294): the
initial 0 and one rounded percentage per event (none when `total` is 0,
which is falsy). -/
def albumProgressWrites (total : Nat) (loadeds : List Nat) : List Nat :=
  0 :: (if total == 0 then [] else loadeds.map (fun ld => jsRound100 ld total))

/-- One progress write of `OrderForm.tsx`'s callback: the raw percentage,
or `Math.min(85 + percentage * 0.15, 100)` when a drive file id exists. -/
def adjustedWrite (drive : Bool) (p : Nat) : ℚ :=
  if drive then min (85 + (p : ℚ) * (15 / 100)) 100 else (p : ℚ)

/-- The values written to `uploadProgress` by one `handleSubmit` attempt of
`OrderForm.tsx`: the initial 5, one adjusted write per event with a truthy
(non-zero) percentage, and the final 100 on success. -/
def orderProgressWrites (drive : Bool) (total : Nat) (loadeds : List Nat)
    (succeeded : Bool) : List ℚ :=
  5 :: (((loadeds.map (fun ld => jsRound100 ld total)).filter
          (fun p => !(p == 0))).map (adjustedWrite drive))
    ++ (if succeeded then [100] else [])

/-! ## Session shell (`DashboardLayout`, `unnamed/part_000`) -/

/-- The cached user record. -/
structure User where
  name : String
  email : String
  role : String
  deriving Repr, DecidableEq

/-- The locally cached session. -/
structure Session where
  cache : Option User
  deriving Repr, DecidableEq

/-- Modelled from the spec: `getCurrentUser` (in `userService`, not part of
the source tree) reads a locally cached user record. -/
def getCurrentUser (s : Session) : Option User := s.cache

/-- Modelled from the spec: `logoutUser` (in `userService`, not part of the
source tree) clears the cached session. -/
def logoutUser (_ : Session) : Session := ⟨none⟩

/-- Result of `handleLogout` in `DashboardLayout`: the session after
`logoutUser()` and the route passed to `navigate`. -/
structure LogoutResult where
  session : Session
  navigatedTo : String
  deriving Repr, DecidableEq

/-- `handleLogout` of `DashboardLayout`: `logoutUser(); toast; navigate("/login")`. -/
def handleLogout (s : Session) : LogoutResult :=
  { session := logoutUser s, navigatedTo := "/login" }

/-- The mount effect of `DashboardLayout`: `if (!currentUser) navigate("/login")`. -/
def dashboardMountNav (s : Session) : Option String :=
  if (getCurrentUser s).isNone then some "/login" else none

/-- A navigation entry of `DashboardLayout`. -/
structure NavItem where
  href : String
  label : String
  roles : List String
  deriving Repr, DecidableEq

/-- `navItems` of `DashboardLayout` (`part_000` lines 59–84). -/
def navItems : List NavItem :=
  [⟨"/dashboard", "Dashboard", ["user"]⟩,
   ⟨"/orders", "Orders", ["user"]⟩,
   ⟨"/admin", "Admin", ["admin"]⟩,
   ⟨"/photographers", "Photographers", ["admin"]⟩]

/-- `navItems.filter(item => item.roles.includes(user.role))`. -/
def filteredNavItems (u : User) : List NavItem :=
  navItems.filter (fun i => i.roles.contains u.role)

/-- What `DashboardLayout` renders: `null` when no user is cached
(`if (!user) return null`), otherwise the role-filtered navigation. -/
def dashboardRender (s : Session) : Option (List NavItem) :=
  match getCurrentUser s with
  | none => none
  | some u => some (filteredNavItems u)

/-! ## Event-level transition systems (one in-flight submission)

The async upload is split at its one suspension point (the awaited
request): `submitStart` is the synchronous prefix of `handleSubmit` +
`uploadToGoogleDrive` up to the `await`, and `settle` is the
continuation.  `pending` lists the requests currently in flight. -/

/-- `clearFile` of `AlbumUpload.tsx` (the state fields it touches). -/
def clearFileFn (s : WizardState) : WizardState :=
  { s with file := none, useGoogleDrive := false }

/-- Full wizard configuration: component state plus in-flight requests
(each carrying the file captured at the `await`). -/
structure WFull where
  ws : WizardState
  pending : List FileMeta
  deriving Repr, DecidableEq

/-- Initial wizard configuration (the `useState` initial values, nothing
in flight). -/
def winit : WFull := { ws := {}, pending := [] }

/-- UI events of the upload wizard.  File selection, clearing and renaming
are available at any time (those controls are never disabled); the submit
button is clickable only while its `disabled` expression is false. -/
inductive WStep : WFull → WFull → Prop where
  | selectV0 (st : WFull) (f : FileMeta) :
      WStep st { st with ws := validateAndSetFile_v0 st.ws f }
  | clearSel (st : WFull) :
      WStep st { st with ws := clearFileFn st.ws }
  | editName (st : WFull) (t : String) :
      WStep st { st with ws := { st.ws with albumName := t } }
  | submitStart (st : WFull) (f : FileMeta) :
      wizardSubmitDisabled st.ws = false → st.ws.file = some f → f.size ≠ 0 →
      WStep st { ws := { st.ws with isUploading := true, uploadProgress := 0,
                                    requests := st.ws.requests + 1 },
                 pending := f :: st.pending }
  | submitInvalidObject (st : WFull) (f : FileMeta) :
      wizardSubmitDisabled st.ws = false → st.ws.file = some f → f.size = 0 →
      WStep st { st with
                 ws := finallyReset
                   { st.ws with
                     toasts := st.ws.toasts ++ [ToastKind.uploadErrorInvalidObject] } }
  | settle (st : WFull) (f : FileMeta) (rest : List FileMeta) (env : UploadEnv) :
      st.pending = f :: rest →
      WStep st { ws := (finishUpload_v0 st.ws f env).state, pending := rest }

/-- Wizard configurations reachable from the initial one. -/
def WReachable (st : WFull) : Prop :=
  Relation.ReflTransGen WStep winit st

/-- Order-form configuration (`OrderForm.tsx` state relevant to submission
gating) plus the number of in-flight `createOrder` requests. -/
structure OForm where
  loading : Bool := false
  submitting : Bool := false
  uploadProgress : ℚ := 0
  userPresent : Bool := true
  pending : Nat := 0
  deriving Repr, DecidableEq

/-- The order form submit control's `disabled` expression
(`loading || submitting`). -/
def orderSubmitDisabled (o : OForm) : Bool := o.loading || o.submitting

/-- UI events of the order form.  Submission is possible only while the
button is enabled; `handleSubmit` first rejects a missing user, otherwise
sets both `loading` and `submitting` and awaits `createOrder`; on success
the `finally` clears only `loading` (`submitting` stays true until the
redirect), on error the `catch` clears `submitting` and `finally` clears
`loading`. -/
inductive OStep : OForm → OForm → Prop where
  | submitNoUser (o : OForm) :
      orderSubmitDisabled o = false → o.userPresent = false →
      OStep o o
  | submitStart (o : OForm) :
      orderSubmitDisabled o = false → o.userPresent = true →
      OStep o { o with loading := true, submitting := true, uploadProgress := 5,
                       pending := o.pending + 1 }
  | settleOk (o : OForm) (k : Nat) :
      o.pending = k + 1 →
      OStep o { o with uploadProgress := 100, loading := false, pending := k }
  | settleErr (o : OForm) (k : Nat) :
      o.pending = k + 1 →
      OStep o { o with submitting := false, loading := false, pending := k }

/-- Order-form configurations reachable from the initial state (with either
presence of a cached user). -/
def OReachable (u : Bool) (o : OForm) : Prop :=
  Relation.ReflTransGen OStep { userPresent := u } o

/-! ## Theorems -/

/-- C1: when a (truthy) drive file id is present, the multipart payload
built by `handleSubmit` carries the identifier and the name/size/MIME
metadata fields and no raw file part; the raw file is appended exactly
when the identifier is absent (and then no `driveFileId` field exists). -/
theorem C1_drive_id_payload :
    ∀ (fid : String), fid ≠ "" →
    ∀ (aName : String) (f : FileMeta) (od : OrderDetails),
      (("driveFileId", FormValue.text fid) ∈ buildOrderFormData (some fid) aName f od ∧
       ("fileName_info", FormValue.text f.name) ∈ buildOrderFormData (some fid) aName f od ∧
       ("fileSize_info", FormValue.text (toString f.size)) ∈ buildOrderFormData (some fid) aName f od ∧
       ("fileMimeType_info", FormValue.text f.mime) ∈ buildOrderFormData (some fid) aName f od ∧
       (∀ (k : String) (g : FileMeta),
          (k, FormValue.filePart g) ∉ buildOrderFormData (some fid) aName f od)) ∧
      (("file", FormValue.filePart f) ∈ buildOrderFormData none aName f od ∧
       (∀ v : FormValue, ("driveFileId", v) ∉ buildOrderFormData none aName f od)) := by
  intro fid hfid aName f od
  have hb : (fid == "") = false := beq_eq_false_iff_ne.mpr hfid
  constructor
  · simp [buildOrderFormData, jsTruthyOptStr, hb]
  · simp [buildOrderFormData, jsTruthyOptStr]

/-- Witness for C1 at a concrete file id, file and options. -/
theorem C1_drive_id_payload_witness :
    ("driveFileId", FormValue.text "drv42") ∈
      buildOrderFormData (some "drv42") "Wedding"
        { name := "album.zip", size := 7, mime := "application/zip" } {} ∧
    (∀ (k : String) (g : FileMeta),
       (k, FormValue.filePart g) ∉
         buildOrderFormData (some "drv42") "Wedding"
           { name := "album.zip", size := 7, mime := "application/zip" } {}) := by
  have h := C1_drive_id_payload "drv42" (by decide) "Wedding"
    { name := "album.zip", size := 7, mime := "application/zip" } {}
  exact ⟨h.1.1, h.1.2.2.2.2⟩

/-- C2: a selection whose lowercased name ends in no allow-listed extension
and whose MIME type contains no allow-listed MIME type is rejected by
`validateAndSetFile` in every revision (with an invalid-type toast, the
file state unchanged, no request issued, and — from the empty state — the
submit control still disabled, so no upload can start); in the `part_001`
revisions a selection recognised as a folder is accepted outright. -/
theorem C2_type_rejection :
    ∀ (f : FileMeta), extListOk f.name = false → mimeListOk f.mime = false →
      (∀ s : WizardState,
        (validateAndSetFile_v0 s f).file = s.file ∧
        (validateAndSetFile_v0 s f).toasts = s.toasts ++ [ToastKind.invalidFileType] ∧
        (validateAndSetFile_v0 s f).requests = s.requests) ∧
      (isFolderSel f = false →
        ∀ s : WizardState,
          (validateAndSetFile_v1 s f).file = s.file ∧
          (validateAndSetFile_v1 s f).toasts = s.toasts ++ [ToastKind.invalidFileType] ∧
          (validateAndSetFile_v1 s f).requests = s.requests ∧
          (validateAndSetFile_v2 s f).file = s.file ∧
          (validateAndSetFile_v2 s f).toasts = s.toasts ++ [ToastKind.invalidFileType] ∧
          (validateAndSetFile_v2 s f).requests = s.requests) ∧
      (∀ s : WizardState, s.file = none →
        (validateAndSetFile_v0 s f).file = none ∧
        wizardSubmitDisabled (validateAndSetFile_v0 s f) = true) ∧
      (∀ g : FileMeta, isFolderSel g = true →
        ∀ s : WizardState,
          (validateAndSetFile_v1 s g).file = some g ∧
          (validateAndSetFile_v2 s g).file = some g) := by
  intro f hext hmime
  have hv : isValidTypeWithMime f = false := by
    simp [isValidTypeWithMime, hext, hmime]
  have hv2 : isValidTypeExtOnly f = false := hext
  refine ⟨fun s => ?_, fun hnf s => ?_, fun s hs => ?_, fun g hg s => ?_⟩
  · simp [validateAndSetFile_v0, hv]
  · simp [validateAndSetFile_v1, validateAndSetFile_v2, hnf, hv, hv2]
  · simp [validateAndSetFile_v0, hv, wizardSubmitDisabled, hs]
  · simp [validateAndSetFile_v1, validateAndSetFile_v2, hg, acceptFolderTail]

/-- Witness for C2 at a disallowed file (`evil.exe`,
`application/x-msdownload`) and a folder selection. -/
theorem C2_type_rejection_witness :
    (validateAndSetFile_v0 {} ⟨"evil.exe", 10, "application/x-msdownload", false, 0, []⟩).file
        = none ∧
    (validateAndSetFile_v1 {} ⟨"Photos", 0, "", false, 0, []⟩).file
        = some ⟨"Photos", 0, "", false, 0, []⟩ := by
  have h := C2_type_rejection ⟨"evil.exe", 10, "application/x-msdownload", false, 0, []⟩
    (by decide) (by decide)
  exact ⟨(h.2.2.1 {} rfl).1, (h.2.2.2 ⟨"Photos", 0, "", false, 0, []⟩ (by decide) {}).1⟩

/-- C3: a regular file of allowed type whose size strictly exceeds the 1GB
ceiling is rejected before any request (file state and request count
unchanged, size toast shown, submit still disabled from the empty state);
a file of exactly the ceiling is accepted. -/
theorem C3_size_gate :
    maxSize_v0 = 1024 * 1024 * 1024 ∧
    ∀ (f : FileMeta), isValidTypeWithMime f = true →
      (maxSize_v0 < f.size →
        ∀ s : WizardState,
          (validateAndSetFile_v0 s f).file = s.file ∧
          (validateAndSetFile_v0 s f).toasts = s.toasts ++ [ToastKind.fileTooLarge] ∧
          (validateAndSetFile_v0 s f).requests = s.requests ∧
          (s.file = none → wizardSubmitDisabled (validateAndSetFile_v0 s f) = true) ∧
          (isFolderSel f = false →
            (validateAndSetFile_v1 s f).file = s.file ∧
            (validateAndSetFile_v1 s f).toasts = s.toasts ++ [ToastKind.fileTooLarge] ∧
            (validateAndSetFile_v1 s f).requests = s.requests)) ∧
      (f.size = maxSize_v0 →
        ∀ s : WizardState,
          (validateAndSetFile_v0 s f).file = some f ∧
          (isFolderSel f = false → (validateAndSetFile_v1 s f).file = some f)) := by
  refine ⟨rfl, fun f hv => ⟨fun hbig s => ?_, fun heq s => ?_⟩⟩
  · have hr : sizeRejected_v0 f.size = true := by
      simp [sizeRejected_v0, hbig]
    have hr1 : sizeRejected_v1 f.size = true := hr
    constructor
    · simp [validateAndSetFile_v0, hv, hr]
    constructor
    · simp [validateAndSetFile_v0, hv, hr]
    constructor
    · simp [validateAndSetFile_v0, hv, hr]
    constructor
    · intro hs
      simp [validateAndSetFile_v0, hv, hr, wizardSubmitDisabled, hs]
    · intro hnf
      simp [validateAndSetFile_v1, hnf, hv, hr1]
  · have hr : sizeRejected_v0 f.size = false := by
      simp [sizeRejected_v0, heq]
    have hr1 : sizeRejected_v1 f.size = false := hr
    constructor
    · simp [validateAndSetFile_v0, hv, hr, acceptFileTail]
    · intro hnf
      simp [validateAndSetFile_v1, hnf, hv, hr1, acceptFileTail]

/-- Witness for C3: a 1GB+1 zip is rejected, a 1GB zip is accepted. -/
theorem C3_size_gate_witness :
    (validateAndSetFile_v0 {} ⟨"big.zip", 1024 * 1024 * 1024 + 1, "application/zip", false, 0, []⟩).file
        = none ∧
    (validateAndSetFile_v0 {} ⟨"ok.zip", 1024 * 1024 * 1024, "application/zip", false, 0, []⟩).file
        = some ⟨"ok.zip", 1024 * 1024 * 1024, "application/zip", false, 0, []⟩ := by
  constructor
  · have h := (C3_size_gate.2 ⟨"big.zip", 1024 * 1024 * 1024 + 1, "application/zip", false, 0, []⟩
      (by decide)).1 (by decide) {}
    rw [h.1]
  · exact ((C3_size_gate.2 ⟨"ok.zip", 1024 * 1024 * 1024, "application/zip", false, 0, []⟩
      (by decide)).2 (by decide) {}).1

/-- C8: `handleLogout` clears the cached session and navigates to the
login route, and a mount of `DashboardLayout` with no cached user
navigates to `/login` and renders `null`. -/
theorem C8_logout_redirect :
    (∀ s : Session,
      (handleLogout s).session.cache = none ∧
      (handleLogout s).navigatedTo = "/login" ∧
      dashboardMountNav (handleLogout s).session = some "/login" ∧
      dashboardRender (handleLogout s).session = none) ∧
    (∀ s : Session, getCurrentUser s = none →
      dashboardMountNav s = some "/login" ∧ dashboardRender s = none) := by
  constructor
  · intro s
    simp [handleLogout, logoutUser, dashboardMountNav, dashboardRender, getCurrentUser]
  · intro s hs
    simp [dashboardMountNav, dashboardRender, getCurrentUser, hs] at *
    simp [hs]

/-- Witness for C8 at a session that just logged out a concrete admin. -/
theorem C8_logout_redirect_witness :
    dashboardMountNav (handleLogout ⟨some ⟨"Ann", "ann@x.com", "admin"⟩⟩).session
        = some "/login" ∧
    dashboardRender (handleLogout ⟨some ⟨"Ann", "ann@x.com", "admin"⟩⟩).session = none := by
  have h := C8_logout_redirect.2 (handleLogout ⟨some ⟨"Ann", "ann@x.com", "admin"⟩⟩).session
    (by rfl)
  exact h

/-- C9 counterexample: no two coexisting revisions disagree on any size
between 500MB and 1GB — every revision's size gate uses the same 1GB
constant, so the claimed 500MB-vs-1GB inconsistency does not exist. -/
theorem C9_counterexample :
    ¬ ∃ n : Nat, 500 * 1024 * 1024 ≤ n ∧ n ≤ 1024 * 1024 * 1024 ∧
        (sizeRejected_v0 n ≠ sizeRejected_v1 n ∨
         sizeRejected_v0 n ≠ sizeRejected_v2 n ∨
         sizeRejected_v1 n ≠ sizeRejected_v2 n) := by
  rintro ⟨n, -, -, h | h | h⟩ <;> exact h rfl

/-- C9 (amended): all three coexisting revisions of the upload component
enforce the same 1GB ceiling; their size gates agree on every size. -/
theorem C9_size_limits_amended :
    maxSize_v0 = 1024 * 1024 * 1024 ∧ maxSize_v1 = maxSize_v0 ∧ maxSize_v2 = maxSize_v0 ∧
    ∀ n : Nat, sizeRejected_v0 n = sizeRejected_v1 n ∧ sizeRejected_v0 n = sizeRejected_v2 n :=
  ⟨rfl, rfl, rfl, fun _ => ⟨rfl, rfl⟩⟩

/-- C10: the folder branch of the direct-transmission revision appends at
most the first `min(fileCount, 20)` files (a sublist of the first 20),
skips any appended candidate larger than 50MB, and shows the
large-folder notification exactly when the 20-file cap truncates the
folder. -/
theorem C10_folder_cap :
    folderFileLimit = 20 ∧ innerFileSizeCap = 50 * 1024 * 1024 ∧
    ∀ (f : FileMeta), f.files ≠ [] →
      (folderBranch_v1 f).earlyErrorReturn = false ∧
      (folderBranch_v1 f).appended.length ≤ min f.files.length folderFileLimit ∧
      List.Sublist (folderBranch_v1 f).appended (f.files.take folderFileLimit) ∧
      (∀ g ∈ (folderBranch_v1 f).appended, g.size ≤ innerFileSizeCap) ∧
      ((folderBranch_v1 f).largeFolderToastShown = true ↔ folderFileLimit < f.files.length) := by
  refine ⟨rfl, rfl, fun f hne => ?_⟩
  have hlen0 : f.files.length ≠ 0 := by
    simpa [List.length_eq_zero] using hne
  have hlenb : (f.files.length == 0) = false := by
    simp [hlen0]
  have happ : (folderBranch_v1 f).appended = folderAppended f.files := by
    simp [folderBranch_v1, hlenb]
  refine ⟨by simp [folderBranch_v1, hlenb], ?_, ?_, ?_, ?_⟩
  · rw [happ]
    have h2 : (folderAppended f.files).length
        ≤ (f.files.take (min f.files.length folderFileLimit)).length := by
      unfold folderAppended
      exact List.length_filter_le _ _
    rw [List.length_take] at h2
    omega
  · rw [happ]
    have e1 : f.files.take (min f.files.length folderFileLimit)
        = (f.files.take folderFileLimit).take f.files.length :=
      (List.take_take _ _ _).symm
    have h1 : List.Sublist (folderAppended f.files)
        (f.files.take (min f.files.length folderFileLimit)) := by
      unfold folderAppended
      exact List.filter_sublist _
    rw [e1] at h1
    exact h1.trans (List.take_sublist _ _)
  · rw [happ]
    intro g hg
    have h4 := (List.mem_filter.mp hg).2
    simp only [Bool.not_eq_true', decide_eq_false_iff_not] at h4
    omega
  · simp only [folderBranch_v1, hlenb, Bool.false_eq_true, if_false, decide_eq_true_eq]
    omega

/-- Witness for C10 at a 22-file folder whose 3rd file is over 50MB. -/
theorem C10_folder_cap_witness :
    (folderBranch_v1
        { name := "Photos", size := 100, mime := "application/x-directory",
          isFolderProp := true, fileCount := 22,
          files := (List.range 22).map
            (fun i => ⟨s!"img{i}.jpg", if i = 2 then 60 * 1024 * 1024 else 5,
                       "image/jpeg", s!"Photos/img{i}.jpg"⟩) }).appended.length
      ≤ min 22 folderFileLimit ∧
    ((folderBranch_v1
        { name := "Photos", size := 100, mime := "application/x-directory",
          isFolderProp := true, fileCount := 22,
          files := (List.range 22).map
            (fun i => ⟨s!"img{i}.jpg", if i = 2 then 60 * 1024 * 1024 else 5,
                       "image/jpeg", s!"Photos/img{i}.jpg"⟩) }).largeFolderToastShown = true
      ↔ folderFileLimit < 22) := by
  have h := (C10_folder_cap.2.2
    { name := "Photos", size := 100, mime := "application/x-directory",
      isFolderProp := true, fileCount := 22,
      files := (List.range 22).map
        (fun i => ⟨s!"img{i}.jpg", if i = 2 then 60 * 1024 * 1024 else 5,
                   "image/jpeg", s!"Photos/img{i}.jpg"⟩) } (by decide))
  exact ⟨h.2.1, h.2.2.2.2⟩

/-- C5: the upload is raced against the 300000ms client-side timer; when the
request has not completed by then the cancel token fires and a timeout
toast is shown, and the attempt ends resubmittable (`isUploading` false,
`uploadProgress` 0, submit control enabled again); when the request
completes first the timer is cleared and no cancellation happens. -/
theorem C5_timeout_handling :
    uploadTimeoutMs = 300000 ∧
    ∀ (s : WizardState) (f : FileMeta) (env : UploadEnv),
      s.file = some f → jsTrim s.albumName ≠ "" → f.size ≠ 0 →
      (timerFires env.completionMs = true →
        (uploadToGoogleDrive_v0 s f env).cancelled = true ∧
        ToastKind.uploadTimeoutMsg ∈ (uploadToGoogleDrive_v0 s f env).state.toasts ∧
        (uploadToGoogleDrive_v0 s f env).state.isUploading = false ∧
        (uploadToGoogleDrive_v0 s f env).state.uploadProgress = 0 ∧
        wizardSubmitDisabled (uploadToGoogleDrive_v0 s f env).state = false) ∧
      (timerFires env.completionMs = false →
        (uploadToGoogleDrive_v0 s f env).cancelled = false ∧
        (uploadToGoogleDrive_v0 s f env).timerCleared = true) := by
  refine ⟨rfl, fun s f env hf hname hsz => ⟨fun ht => ?_, fun ht => ?_⟩⟩
  · have hszb : (f.size == 0) = false := by simp [hsz]
    have hnb : (jsTrim s.albumName == "") = false := by simp [hname]
    simp [uploadToGoogleDrive_v0, hszb, finishUpload_v0, ht, finallyReset,
          wizardSubmitDisabled, hf, hnb]
  · have hszb : (f.size == 0) = false := by simp [hsz]
    cases henv : env.outcome with
    | ok succ fid =>
        cases succ <;>
          simp [uploadToGoogleDrive_v0, hszb, finishUpload_v0, ht, henv, finallyReset]
    | err e =>
        simp [uploadToGoogleDrive_v0, hszb, finishUpload_v0, ht, henv, finallyReset]

/-- Witness for C5: a concrete timed-out attempt is cancelled and ends
resubmittable; a concrete completed attempt clears the timer. -/
theorem C5_timeout_handling_witness :
    (uploadToGoogleDrive_v0
        { albumName := "A", file := some ⟨"a.zip", 5, "application/zip", false, 0, []⟩ }
        ⟨"a.zip", 5, "application/zip", false, 0, []⟩
        { completionMs := none, outcome := ReqOutcome.ok true none }).cancelled = true ∧
    (uploadToGoogleDrive_v0
        { albumName := "A", file := some ⟨"a.zip", 5, "application/zip", false, 0, []⟩ }
        ⟨"a.zip", 5, "application/zip", false, 0, []⟩
        { completionMs := some 1000, outcome := ReqOutcome.ok true none }).timerCleared
      = true := by
  refine ⟨((C5_timeout_handling.2
      { albumName := "A", file := some ⟨"a.zip", 5, "application/zip", false, 0, []⟩ }
      ⟨"a.zip", 5, "application/zip", false, 0, []⟩
      { completionMs := none, outcome := ReqOutcome.ok true none }
      rfl (by decide) (by decide)).1 (by decide)).1,
    ((C5_timeout_handling.2
      { albumName := "A", file := some ⟨"a.zip", 5, "application/zip", false, 0, []⟩ }
      ⟨"a.zip", 5, "application/zip", false, 0, []⟩
      { completionMs := some 1000, outcome := ReqOutcome.ok true none }
      rfl (by decide) (by decide)).2 (by decide)).2⟩

/-- C6 counterexample: a timed-out attempt shows two user-visible messages
(the timer's timeout toast plus the catch handler's), and the selected
file and album name are retained, not cleared — the wizard does not reset
to the unselected state. -/
theorem C6_counterexample :
    ((uploadToGoogleDrive_v0
        { albumName := "Wedding", file := some ⟨"album.zip", 1000, "application/zip", false, 0, []⟩ }
        ⟨"album.zip", 1000, "application/zip", false, 0, []⟩
        { completionMs := none, outcome := ReqOutcome.ok true none }).state.toasts
      = [ToastKind.uploadTimeoutMsg, ToastKind.uploadFailedMsg]) ∧
    ((uploadToGoogleDrive_v0
        { albumName := "Wedding", file := some ⟨"album.zip", 1000, "application/zip", false, 0, []⟩ }
        ⟨"album.zip", 1000, "application/zip", false, 0, []⟩
        { completionMs := none, outcome := ReqOutcome.ok true none }).state.file
      = some ⟨"album.zip", 1000, "application/zip", false, 0, []⟩) ∧
    ((uploadToGoogleDrive_v0
        { albumName := "Wedding", file := some ⟨"album.zip", 1000, "application/zip", false, 0, []⟩ }
        ⟨"album.zip", 1000, "application/zip", false, 0, []⟩
        { completionMs := none, outcome := ReqOutcome.ok true none }).state.albumName
      = "Wedding") :=
  ⟨rfl, rfl, rfl⟩

/-- C6 (amended): every failed attempt shows one classified message from
the catch handler (network error, timeout, payload too large, server
error, or generic failure) — plus the timer's own timeout toast when the
failure is the client-side timeout — makes exactly one request with no
retry, and resets only the uploading state: the selected file and the
album name are retained. -/
theorem C6_failure_handling_amended :
    ∀ (s : WizardState) (f : FileMeta) (env : UploadEnv),
      f.size ≠ 0 → envFailed env = true →
      (∃ t ∈ classifiedToasts,
        (uploadToGoogleDrive_v0 s f env).state.toasts
          = s.toasts ++ (if timerFires env.completionMs then [ToastKind.uploadTimeoutMsg, t]
                         else [t])) ∧
      (uploadToGoogleDrive_v0 s f env).state.isUploading = false ∧
      (uploadToGoogleDrive_v0 s f env).state.uploadProgress = 0 ∧
      (uploadToGoogleDrive_v0 s f env).state.file = s.file ∧
      (uploadToGoogleDrive_v0 s f env).state.albumName = s.albumName ∧
      (uploadToGoogleDrive_v0 s f env).state.requests = s.requests + 1 ∧
      (uploadToGoogleDrive_v0 s f env).callback = none := by
  intro s f env hsz hfail
  have hszb : (f.size == 0) = false := by simp [hsz]
  by_cases ht : timerFires env.completionMs = true
  · refine ⟨⟨if env.cancelRejectIsAxios then ToastKind.uploadTimeoutMsg
             else ToastKind.uploadFailedMsg, ?_, ?_⟩, ?_, ?_, ?_, ?_, ?_, ?_⟩
    · cases env.cancelRejectIsAxios <;> simp [classifiedToasts]
    · cases hax : env.cancelRejectIsAxios <;>
        simp [uploadToGoogleDrive_v0, hszb, finishUpload_v0, ht, finallyReset, hax]
    all_goals simp [uploadToGoogleDrive_v0, hszb, finishUpload_v0, ht, finallyReset]
  · have ht' : timerFires env.completionMs = false := by
      simpa using ht
    have hout : (match env.outcome with
        | ReqOutcome.ok true _ => false
        | _ => true) = true := by
      have := hfail
      simp [envFailed, ht'] at this
      exact this
    cases henv : env.outcome with
    | ok succ fid =>
        cases succ with
        | true => rw [henv] at hout; simp at hout
        | false =>
            refine ⟨⟨ToastKind.uploadFailedMsg, by simp [classifiedToasts], ?_⟩,
                    ?_, ?_, ?_, ?_, ?_, ?_⟩ <;>
              simp [uploadToGoogleDrive_v0, hszb, finishUpload_v0, ht', henv, finallyReset]
    | err e =>
        refine ⟨⟨catchToast_v0 e, by cases e <;> simp [catchToast_v0, classifiedToasts], ?_⟩,
                ?_, ?_, ?_, ?_, ?_, ?_⟩ <;>
          simp [uploadToGoogleDrive_v0, hszb, finishUpload_v0, ht', henv, finallyReset]

/-- `Math.round` of a percentage is monotone in `loaded`. -/
theorem jsRound100_mono {a b t : Nat} (h : a ≤ b) : jsRound100 a t ≤ jsRound100 b t := by
  unfold jsRound100
  exact Nat.div_le_div_right (by omega)

/-- `Math.round((loaded * 100) / total) ≤ 100` whenever `loaded ≤ total`. -/
theorem jsRound100_le_100 {ld t : Nat} (ht : 0 < t) (h : ld ≤ t) : jsRound100 ld t ≤ 100 := by
  unfold jsRound100
  have h2 : 200 * ld + t < 101 * (2 * t) := by omega
  have h3 := (Nat.div_lt_iff_lt_mul (show 0 < 2 * t by omega)).mpr h2
  omega

/-- Order-form progress writes are nonnegative. -/
theorem adjustedWrite_nonneg (d : Bool) (p : Nat) : 0 ≤ adjustedWrite d p := by
  cases d with
  | false => simp [adjustedWrite]
  | true =>
      simp only [adjustedWrite, if_true]
      refine le_min ?_ (by norm_num)
      positivity

/-- Order-form progress writes stay at or below 100 for percentages ≤ 100. -/
theorem adjustedWrite_le_100 (d : Bool) {p : Nat} (hp : p ≤ 100) :
    adjustedWrite d p ≤ 100 := by
  cases d with
  | false =>
      simp only [adjustedWrite, if_false, Bool.false_eq_true]
      exact_mod_cast hp
  | true =>
      simp only [adjustedWrite, if_true]
      exact min_le_right _ _

/-- Order-form progress writes are monotone in the percentage. -/
theorem adjustedWrite_mono (d : Bool) {p q : Nat} (h : p ≤ q) :
    adjustedWrite d p ≤ adjustedWrite d q := by
  cases d with
  | false =>
      simp only [adjustedWrite, if_false, Bool.false_eq_true]
      exact_mod_cast h
  | true =>
      simp only [adjustedWrite, if_true]
      refine min_le_min ?_ le_rfl
      have hq : (p : ℚ) ≤ (q : ℚ) := by exact_mod_cast h
      nlinarith

/-- In the drive-file-id path every event-driven write is at least 85 ≥ 5. -/
theorem five_le_adjustedWrite (p : Nat) : (5 : ℚ) ≤ adjustedWrite true p := by
  simp only [adjustedWrite, if_true]
  refine le_min ?_ (by norm_num)
  have h0 : (0 : ℚ) ≤ (p : ℚ) * (15 / 100) := by positivity
  linarith

/-- Witness for C6 (amended) at a concrete network-error attempt. -/
theorem C6_failure_handling_amended_witness :
    (uploadToGoogleDrive_v0
        { albumName := "A", file := some ⟨"a.zip", 5, "application/zip", false, 0, []⟩ }
        ⟨"a.zip", 5, "application/zip", false, 0, []⟩
        { completionMs := some 10, outcome := ReqOutcome.err ReqError.network }).state.file
      = some ⟨"a.zip", 5, "application/zip", false, 0, []⟩ ∧
    (uploadToGoogleDrive_v0
        { albumName := "A", file := some ⟨"a.zip", 5, "application/zip", false, 0, []⟩ }
        ⟨"a.zip", 5, "application/zip", false, 0, []⟩
        { completionMs := some 10, outcome := ReqOutcome.err ReqError.network }).state.requests
      = 1 := by
  have h := C6_failure_handling_amended
    { albumName := "A", file := some ⟨"a.zip", 5, "application/zip", false, 0, []⟩ }
    ⟨"a.zip", 5, "application/zip", false, 0, []⟩
    { completionMs := some 10, outcome := ReqOutcome.err ReqError.network }
    (by decide) (by decide)
  exact ⟨h.2.2.2.1, h.2.2.2.2.2.1⟩

/-- C4 counterexample: in the plain (no drive-file-id) path, an attempt
whose single progress event reports `loaded = 1` of `total = 100`
(satisfying the claim's hypotheses) writes the sequence 5, 1, 100 —
not monotonically non-decreasing from the initial write of 5. -/
theorem C4_counterexample :
    (∀ ld ∈ [1], ld ≤ 100) ∧ List.Pairwise (fun a b : Nat => a ≤ b) [1] ∧
    orderProgressWrites false 100 [1] true = [5, 1, 100] ∧
    ¬ List.Pairwise (fun a b : ℚ => a ≤ b) (orderProgressWrites false 100 [1] true) := by
  have he : orderProgressWrites false 100 [1] true = [5, 1, 100] := by
    norm_num [orderProgressWrites, adjustedWrite, jsRound100]
  refine ⟨by decide, by decide, he, ?_⟩
  rw [he]
  intro h
  have h5 := (List.pairwise_cons.mp h).1 1 (by simp)
  norm_num at h5

/-- C4 (amended): within one attempt all progress writes lie in [0, 100];
the event-driven writes (and the final 100) are monotonically
non-decreasing, as are the upload wizard's writes; in the drive-file-id
path the whole sequence including the initial 5 is non-decreasing, while
in the plain path only the initial write of 5 may exceed the first
event-driven write (percentages 1–4). -/
theorem C4_progress_amended :
    ∀ (total : Nat) (loadeds : List Nat) (drive succeeded : Bool),
      0 < total → (∀ ld ∈ loadeds, ld ≤ total) →
      List.Pairwise (fun a b : Nat => a ≤ b) loadeds →
      ((∀ x ∈ orderProgressWrites drive total loadeds succeeded, 0 ≤ x ∧ x ≤ 100) ∧
       List.Pairwise (fun a b : ℚ => a ≤ b)
         (orderProgressWrites drive total loadeds succeeded).tail ∧
       (drive = true →
         List.Pairwise (fun a b : ℚ => a ≤ b)
           (orderProgressWrites drive total loadeds succeeded)) ∧
       (∀ x ∈ albumProgressWrites total loadeds, x ≤ 100) ∧
       List.Pairwise (fun a b : Nat => a ≤ b) (albumProgressWrites total loadeds)) := by
  intro total loadeds drive succ ht hle hmono
  have hpcts_le : ∀ p ∈ loadeds.map (fun ld => jsRound100 ld total), p ≤ 100 := by
    intro p hp
    rcases List.mem_map.mp hp with ⟨ld, hld, rfl⟩
    exact jsRound100_le_100 ht (hle ld hld)
  have hpcts_mono :
      List.Pairwise (fun a b : Nat => a ≤ b)
        (loadeds.map (fun ld => jsRound100 ld total)) :=
    hmono.map _ (fun a b hab => jsRound100_mono hab)
  have hf_le : ∀ p ∈ (loadeds.map (fun ld => jsRound100 ld total)).filter
      (fun p => !(p == 0)), p ≤ 100 :=
    fun p hp => hpcts_le p (List.mem_of_mem_filter hp)
  have hf_mono :
      List.Pairwise (fun a b : Nat => a ≤ b)
        ((loadeds.map (fun ld => jsRound100 ld total)).filter (fun p => !(p == 0))) :=
    hpcts_mono.filter _
  have hws_bounds : ∀ x ∈ ((loadeds.map (fun ld => jsRound100 ld total)).filter
      (fun p => !(p == 0))).map (adjustedWrite drive), 0 ≤ x ∧ x ≤ 100 := by
    intro x hx
    rcases List.mem_map.mp hx with ⟨p, hp, rfl⟩
    exact ⟨adjustedWrite_nonneg _ _, adjustedWrite_le_100 _ (hf_le p hp)⟩
  have hws_mono :
      List.Pairwise (fun a b : ℚ => a ≤ b)
        (((loadeds.map (fun ld => jsRound100 ld total)).filter
          (fun p => !(p == 0))).map (adjustedWrite drive)) :=
    hf_mono.map _ (fun a b hab => adjustedWrite_mono _ hab)
  have htail :
      List.Pairwise (fun a b : ℚ => a ≤ b)
        ((((loadeds.map (fun ld => jsRound100 ld total)).filter
          (fun p => !(p == 0))).map (adjustedWrite drive))
          ++ (if succ then [100] else [])) := by
    rw [List.pairwise_append]
    refine ⟨hws_mono, by cases succ <;> simp, ?_⟩
    intro a ha b hb
    cases succ with
    | true =>
        simp only [if_true, List.mem_singleton] at hb
        subst hb
        exact (hws_bounds a ha).2
    | false => simp at hb
  have hwrit : orderProgressWrites drive total loadeds succ
      = 5 :: ((((loadeds.map (fun ld => jsRound100 ld total)).filter
          (fun p => !(p == 0))).map (adjustedWrite drive))
          ++ (if succ then [100] else [])) := rfl
  refine ⟨?_, ?_, ?_, ?_, ?_⟩
  · rw [hwrit]
    intro x hx
    rcases List.mem_cons.mp hx with rfl | hx2
    · norm_num
    rcases List.mem_append.mp hx2 with hx3 | hx4
    · exact hws_bounds x hx3
    · cases succ with
      | true =>
          simp only [if_true, List.mem_singleton] at hx4
          subst hx4
          norm_num
      | false => simp at hx4
  · rw [hwrit]
    exact htail
  · intro hd
    subst hd
    rw [hwrit]
    rw [List.pairwise_cons]
    refine ⟨?_, htail⟩
    intro b hb
    rcases List.mem_append.mp hb with hb1 | hb2
    · rcases List.mem_map.mp hb1 with ⟨p, hp, rfl⟩
      exact five_le_adjustedWrite p
    · cases succ with
      | true =>
          simp only [if_true, List.mem_singleton] at hb2
          subst hb2
          norm_num
      | false => simp at hb2
  · have hg : (total == 0) = false := by
      simp
      omega
    intro x hx
    simp only [albumProgressWrites, hg, if_false, Bool.false_eq_true] at hx
    rcases List.mem_cons.mp hx with rfl | hx2
    · omega
    · exact hpcts_le x hx2
  · have hg : (total == 0) = false := by
      simp
      omega
    simp only [albumProgressWrites, hg, if_false, Bool.false_eq_true]
    rw [List.pairwise_cons]
    exact ⟨fun b _ => Nat.zero_le b, hpcts_mono⟩

/-- Witness for C4 (amended) at a concrete drive-file-id attempt and a
concrete wizard attempt. -/
theorem C4_progress_amended_witness :
    List.Pairwise (fun a b : ℚ => a ≤ b) (orderProgressWrites true 100 [10, 50] true) ∧
    List.Pairwise (fun a b : Nat => a ≤ b) (albumProgressWrites 100 [10, 50]) := by
  have h := C4_progress_amended 100 [10, 50] true true (by decide) (by decide) (by decide)
  exact ⟨h.2.2.1 rfl, h.2.2.2.2⟩

/-- `validateAndSetFile` never touches the uploading flag. -/
theorem validate_v0_keeps_uploading (s : WizardState) (f : FileMeta) :
    (validateAndSetFile_v0 s f).isUploading = s.isUploading := by
  unfold validateAndSetFile_v0
  split
  · rfl
  split
  · rfl
  · rfl

/-- The continuation after the awaited request always clears the uploading
flag and resets the progress (the `finally` block). -/
theorem finishUpload_v0_resets (s : WizardState) (f : FileMeta) (env : UploadEnv) :
    (finishUpload_v0 s f env).state.isUploading = false ∧
    (finishUpload_v0 s f env).state.uploadProgress = 0 := by
  unfold finishUpload_v0 finallyReset
  split
  · exact ⟨rfl, rfl⟩
  · cases env.outcome with
    | ok succ fid => cases succ <;> exact ⟨rfl, rfl⟩
    | err e => exact ⟨rfl, rfl⟩

/-- A state whose uploading flag is set has its submit control disabled. -/
theorem disabled_of_uploading (s : WizardState) (h : s.isUploading = true) :
    wizardSubmitDisabled s = true := by
  simp [wizardSubmitDisabled, h]

/-- An enabled wizard submit control means nothing is uploading. -/
theorem uploading_false_of_enabled (s : WizardState)
    (h : wizardSubmitDisabled s = false) : s.isUploading = false := by
  unfold wizardSubmitDisabled at h
  simp only [Bool.or_eq_false_iff] at h
  exact h.2

/-- The single-in-flight invariant of the upload wizard. -/
def WInv (st : WFull) : Prop :=
  st.pending.length ≤ 1 ∧
  (st.ws.isUploading = true ↔ st.pending ≠ []) ∧
  (st.pending ≠ [] → wizardSubmitDisabled st.ws = true)

/-- Every wizard event preserves the single-in-flight invariant. -/
theorem wstep_preserves {a c : WFull} (h : WStep a c) (ih : WInv a) : WInv c := by
  rcases ih with ⟨ih1, ih2, ih3⟩
  cases h with
  | selectV0 f =>
      refine ⟨ih1, ?_, ?_⟩
      · rw [show ({ a with ws := validateAndSetFile_v0 a.ws f } : WFull).ws.isUploading
            = a.ws.isUploading from validate_v0_keeps_uploading _ _]
        exact ih2
      · intro hne
        exact disabled_of_uploading _
          ((validate_v0_keeps_uploading _ _).trans (ih2.mpr hne))
  | clearSel =>
      refine ⟨ih1, ih2, ?_⟩
      intro hne
      exact disabled_of_uploading _ (ih2.mpr hne)
  | editName t =>
      refine ⟨ih1, ih2, ?_⟩
      intro hne
      exact disabled_of_uploading _ (ih2.mpr hne)
  | submitStart f hdis hfile hsz =>
      have hup : a.ws.isUploading = false := uploading_false_of_enabled _ hdis
      have hpend : a.pending = [] := by
        by_contra hne
        rw [ih2.mpr hne] at hup
        cases hup
      refine ⟨?_, ?_, ?_⟩
      · simp [hpend]
      · simp
      · intro _
        exact disabled_of_uploading _ rfl
  | submitInvalidObject f hdis hfile hsz =>
      have hup : a.ws.isUploading = false := uploading_false_of_enabled _ hdis
      have hpend : a.pending = [] := by
        by_contra hne
        rw [ih2.mpr hne] at hup
        cases hup
      refine ⟨ih1, ?_, ?_⟩
      · simp [finallyReset, hpend]
      · intro hne
        rw [hpend] at hne
        cases hne rfl
  | settle f rest env hpend =>
      have hrest : rest = [] := by
        rw [hpend] at ih1
        simpa using ih1
      refine ⟨?_, ?_, ?_⟩
      · simp [hrest]
      · rw [show ({ ws := (finishUpload_v0 a.ws f env).state, pending := rest } : WFull).ws.isUploading
            = false from (finishUpload_v0_resets a.ws f env).1]
        simp [hrest]
      · intro hne
        rw [hrest] at hne
        cases hne rfl

/-- The single-in-flight invariant of the order form. -/
def OInv (o : OForm) : Prop :=
  o.pending ≤ 1 ∧ (o.pending ≠ 0 → orderSubmitDisabled o = true)

/-- Every order-form event preserves the single-in-flight invariant. -/
theorem ostep_preserves {a c : OForm} (h : OStep a c) (ih : OInv a) : OInv c := by
  rcases ih with ⟨ih1, ih2⟩
  cases h with
  | submitNoUser hdis hu => exact ⟨ih1, ih2⟩
  | submitStart hdis hu =>
      have hpend : a.pending = 0 := by
        by_contra hne
        rw [ih2 hne] at hdis
        cases hdis
      refine ⟨by simp [hpend], ?_⟩
      intro _
      simp [orderSubmitDisabled]
  | settleOk k hpend =>
      refine ⟨?_, ?_⟩
      · simp only
        omega
      · intro hk
        simp only at hk
        rw [hpend] at ih1
        omega
  | settleErr k hpend =>
      refine ⟨?_, ?_⟩
      · simp only
        omega
      · intro hk
        simp only at hk
        rw [hpend] at ih1
        omega

/-- C7: in every reachable configuration of the upload wizard and of the
order form, at most one submission is in flight; while one is, the
uploading/loading state is set and the submit control is disabled, so a
second submission cannot start until the attempt settles. -/
theorem C7_single_inflight :
    (∀ st : WFull, WReachable st →
      st.pending.length ≤ 1 ∧
      (st.ws.isUploading = true ↔ st.pending ≠ []) ∧
      (st.pending ≠ [] → wizardSubmitDisabled st.ws = true)) ∧
    (∀ (u : Bool) (o : OForm), OReachable u o →
      o.pending ≤ 1 ∧ (o.pending ≠ 0 → orderSubmitDisabled o = true)) := by
  constructor
  · intro st hst
    unfold WReachable at hst
    have hinv : WInv st := by
      induction hst with
      | refl => exact ⟨by simp [winit], by simp [winit], by simp [winit]⟩
      | tail hab hstep ih => exact wstep_preserves hstep ih
    exact hinv
  · intro u o ho
    unfold OReachable at ho
    have hinv : OInv o := by
      induction ho with
      | refl => exact ⟨by simp, by simp⟩
      | tail hab hstep ih => exact ostep_preserves hstep ih
    exact hinv

/-- Witness for C7 at the initial configurations (reachable by the empty
path). -/
theorem C7_single_inflight_witness :
    winit.pending.length ≤ 1 ∧ ({ userPresent := true } : OForm).pending ≤ 1 :=
  ⟨(C7_single_inflight.1 winit Relation.ReflTransGen.refl).1,
   (C7_single_inflight.2 true { userPresent := true } Relation.ReflTransGen.refl).1⟩

end Photofine
